import Mathlib

/-
Verification of the orchestration core of the ESG greenwashing analysis
pipeline: complexity routing, the step-adapter wrappers, the debate
(consensus) resolver with confidence-weighted voting, the confidence
monitor, and the verdict rule cascade.

Python floats are embedded as rationals. External calls (LLM invocations,
web fetches) are parameters of the embedded functions: a node takes the
outcome of its underlying call as an `Except String _` value, so both the
success and the exception branch of the Python code are modelled.
Free-text pattern matching on the claim text (the regular expressions and
substring tests of `verdict_generation_node`) is abstracted into boolean
flags carried by the state, one flag per source-level test; the boolean
combinations of those tests are embedded exactly.
-/

namespace ESG

/-- Risk verdict labels used throughout the pipeline
(`risk_level` values "LOW" / "MODERATE" / "HIGH"). -/
inductive Verdict where
  | low
  | moderate
  | high
deriving DecidableEq, Repr

/-- Workflow paths returned by `SupervisorAgent.route_workflow`. -/
inductive Path where
  | fastTrack
  | standardTrack
  | deepAnalysis
deriving DecidableEq, Repr

/-- Clamp to [0,1]: `max(0.0, min(1.0, complexity))` in
`SupervisorAgent.assess_complexity`. -/
def clamp01 (q : ℚ) : ℚ := max 0 (min 1 q)

/-- Complexity score produced at the scoring boundary:
the scorer result clamped to [0,1], defaulting to 0.5 on failure
(`SupervisorAgent.assess_complexity`). -/
def assessComplexityScore (r : Except String ℚ) : ℚ :=
  match r with
  | .ok q => clamp01 q
  | .error _ => 1/2

/-- `SupervisorAgent.route_workflow`: fixed threshold table on the
complexity score. -/
def routeWorkflow (complexity : ℚ) : Path :=
  if complexity < 3/10 then .fastTrack
  else if complexity < 7/10 then .standardTrack
  else .deepAnalysis

/-- Threshold bucket of a score, induced by the two routing thresholds
0.3 and 0.7 (used to state routing monotonicity). -/
def bucket (complexity : ℚ) : ℕ :=
  if complexity < 3/10 then 0
  else if complexity < 7/10 then 1
  else 2

/-- Historical-analyst payload as read by `verdict_generation_node`
(each field models one `dict.get` with its source default). -/
structure HistData where
  reputationScore : ℤ
  pastViolations : ℕ
  gwPatternDetected : Bool
  gwPriorAccusations : ℕ
  decliningTrend : Bool
  reactiveClaims : Bool
deriving DecidableEq, Repr

/-- One entry of `state["agent_outputs"]`. Optional fields model optional
dictionary keys; `none` means the key is absent. `output` is the opaque
payload rendered as text (used only by the substring heuristics of
`DebateOrchestrator.infer_verdict_from_output`). -/
structure AgentOut where
  agent : String
  output : Option String := none
  confidence : Option ℚ := none
  error : Option String := none
  riskLevel : Option Verdict := none
  contradictionsCount : Option ℕ := none
  conflictingAgents : Option (List String) := none
  conflictRatio : Option ℚ := none
  histPayload : Option HistData := none
deriving DecidableEq, Repr

/-- Boolean outcomes of the free-text pattern tests that
`verdict_generation_node` applies to the claim text. Each field stands
for one regular-expression or substring test of the source; the two
`has_metrics` fields are distinct because the source computes
`has_metrics` twice with two different patterns (lines 770 and 931). -/
structure ClaimFlags where
  absolutePattern : Bool
  legitTerm : Bool
  hasMetrics : Bool
  hasYear : Bool
  superlative : Bool
  vagueKeywordCount : ℕ
  hasMetricsP6 : Bool
deriving DecidableEq, Repr

/-- Final verdict record (`state["final_verdict"]`), reduced to the
fields the orchestration claims are about. -/
structure FinalVerdict where
  riskLevel : Verdict
  confidence : ℚ
deriving DecidableEq, Repr

/-- The shared `ESGState` record threaded through the pipeline. -/
structure EState where
  company : String
  industry : String
  claim : ClaimFlags
  complexityScore : ℚ
  workflowPath : Option Path
  evidence : List String
  confidence : ℚ
  riskLevel : Verdict
  agentOutputs : List AgentOut
  iterationCount : ℕ
  needsRevision : Bool
  finalVerdict : Option FinalVerdict
  report : Option String
deriving DecidableEq, Repr

/-! ## Consensus resolver (DebateOrchestrator) -/

/-- A position extracted from an agent output for voting. -/
structure Position where
  verdict : Verdict
  confidence : ℚ
deriving DecidableEq, Repr

/-- One recorded debate argument
(`run_debate_round` result entries). -/
structure DebateArg where
  round : ℕ
  agent : String
  position : Verdict
  argument : String
deriving DecidableEq, Repr

/-- Vote weight of one position: `int(confidence * 10)` in
`resolve_by_voting`; Python `int` truncation coincides with the floor on
the nonnegative confidences the pipeline produces. -/
def voteWeight (confidence : ℚ) : ℕ := (⌊confidence * 10⌋).toNat

/-- The multiset of weighted votes: each position casts
`voteWeight` identical votes for its verdict, in position order. -/
def weightedVotes (positions : List (String × Position)) : List Verdict :=
  (positions.map (fun p => List.replicate (voteWeight p.2.confidence) p.2.verdict)).flatten

/-- Keys of a `collections.Counter` built from `l`, in insertion
(first-occurrence) order. -/
def keysInOrder (l : List Verdict) : List Verdict :=
  l.foldl (fun acc v => if v ∈ acc then acc else acc ++ [v]) []

/-- One step of the maximum search performed by
`Counter.most_common(1)`: replace the current best only on a strictly
larger count, so ties keep the earlier-inserted key. -/
def pickStep (l : List Verdict) (acc : Option Verdict) (v : Verdict) : Option Verdict :=
  match acc with
  | none => some v
  | some w => if l.count w < l.count v then some v else acc

/-- `Counter(l).most_common(1)[0][0]` (and `none` when `l` is empty):
the element with the maximal count, earliest first occurrence winning
ties. -/
def pickMost (l : List Verdict) : Option Verdict :=
  (keysInOrder l).foldl (pickStep l) none

/-- Result of `DebateOrchestrator.resolve_by_voting`. The `Option`
fields are the keys absent from the fallback dictionary returned when
there are no votes. -/
structure VoteResult where
  verdict : Verdict
  confidence : ℚ
  consensusStrength : Option ℚ
  conflictingAgents : List String
  conflictRatio : Option ℚ
  totalAgents : Option ℕ
deriving DecidableEq, Repr

/-- The source local `consensus_confidence`: winning votes over total
votes. -/
def rbvConsensus (positions : List (String × Position)) (w : Verdict) : ℚ :=
  (((weightedVotes positions).count w : ℚ)) / (((weightedVotes positions).length : ℚ))

/-- The source local `debate_quality_bonus`:
`min(0.1, len(debate_history) * 0.01)`. -/
def rbvBonus (debateHistory : List DebateArg) : ℚ :=
  min (1/10) ((debateHistory.length : ℚ) * (1/100))

/-- The source local `final_confidence` before the conflict discount:
`min(0.95, consensus_confidence + debate_quality_bonus)`. -/
def rbvBoosted (positions : List (String × Position)) (debateHistory : List DebateArg)
    (w : Verdict) : ℚ :=
  min (95/100) (rbvConsensus positions w + rbvBonus debateHistory)

/-- The source local `conflicting_agents`: names of the positions whose
verdict differs from the winner. -/
def rbvConflicting (positions : List (String × Position)) (w : Verdict) : List String :=
  (positions.filter (fun p => p.2.verdict ≠ w)).map (fun p => p.1)

/-- The source local `conflict_ratio`:
`len(conflicting_agents) / max(total_agents, 1)`. -/
def rbvConflictRatio (positions : List (String × Position)) (w : Verdict) : ℚ :=
  ((rbvConflicting positions w).length : ℚ) / ((max positions.length 1 : ℕ) : ℚ)

/-- The returned `confidence`: the boosted value, discounted by the
factor `(1 - conflict_ratio * 0.3)` exactly when the conflict ratio is
at least 0.60. -/
def rbvConfidence (positions : List (String × Position)) (debateHistory : List DebateArg)
    (w : Verdict) : ℚ :=
  if rbvConflictRatio positions w ≥ 60/100 then
    rbvBoosted positions debateHistory w * (1 - rbvConflictRatio positions w * (3/10))
  else rbvBoosted positions debateHistory w

/-- `DebateOrchestrator.resolve_by_voting`: confidence-weighted plurality
vote over the extracted positions, with the debate-quality bonus, the
0.95 cap, and the high-conflict discount. -/
def resolveByVoting (positions : List (String × Position))
    (debateHistory : List DebateArg) : VoteResult :=
  match pickMost (weightedVotes positions) with
  | none =>
      { verdict := .moderate, confidence := 1/2, consensusStrength := none,
        conflictingAgents := [], conflictRatio := none, totalAgents := none }
  | some w =>
      { verdict := w,
        confidence := rbvConfidence positions debateHistory w,
        consensusStrength := some (rbvConsensus positions w),
        conflictingAgents := rbvConflicting positions w,
        conflictRatio := some (rbvConflictRatio positions w),
        totalAgents := some positions.length }

/-- Aggregate raw confidence sum of the positions holding a given
verdict (the tie-break comparator named by the specification). -/
def confSum (positions : List (String × Position)) (v : Verdict) : ℚ :=
  ((positions.filter (fun p => p.2.verdict = v)).map (fun p => p.2.confidence)).sum

/-- Substring test, modelling the Python `pat in hay` operator. -/
def containsSub (hay pat : String) : Bool := decide (pat.toList <:+: hay.toList)

/-- `DebateOrchestrator.infer_verdict_from_output`: substring heuristics
over the lowercased payload text. -/
def inferVerdict (raw : String) : Verdict :=
  let s := raw.toLower
  if ["high risk", "severe", "critical", "major concern"].any (fun w => containsSub s w) then .high
  else if ["low risk", "minimal", "acceptable", "verified"].any (fun w => containsSub s w) then .low
  else .moderate

/-- The position `extract_positions` derives from one agent output. -/
def positionOf (o : AgentOut) : Position :=
  if o.agent = "risk_scoring" then
    { verdict := o.riskLevel.getD .moderate, confidence := o.confidence.getD (1/2) }
  else if o.agent = "contradiction_analysis" then
    let c := o.contradictionsCount.getD 0
    { verdict := if c > 2 then .high else if c > 0 then .moderate else .low,
      confidence := o.confidence.getD (1/2) }
  else
    { verdict := inferVerdict (o.output.getD ""), confidence := o.confidence.getD (1/2) }

/-- Python dictionary assignment `d[k] = v`: an existing key keeps its
insertion position and gets the new value, a new key is appended. -/
def dictInsert (l : List (String × Position)) (k : String) (v : Position) :
    List (String × Position) :=
  if l.any (fun p => p.1 = k) then
    l.map (fun p => if p.1 = k then (k, v) else p)
  else l ++ [(k, v)]

/-- `DebateOrchestrator.extract_positions`: one position per
non-meta agent, in first-output order, later outputs of the same agent
overwriting the value. -/
def extractPositions (outs : List AgentOut) : List (String × Position) :=
  outs.foldl
    (fun acc o =>
      if o.agent ∈ ["supervisor", "report_generation", "debate_orchestrator"] then acc
      else dictInsert acc o.agent (positionOf o))
    []

/-- `DebateOrchestrator.detect_conflicts`: all positions when the
distinct verdicts number at least two, nothing otherwise. -/
def detectConflicts (positions : List (String × Position)) :
    List (String × Position) :=
  if positions.length < 2 then []
  else if (positions.map (fun p => p.2.verdict)).dedup.length ≤ 1 then []
  else positions

/-- One debate round (`run_debate_round`): every conflicting agent whose
external reasoning call succeeds contributes one argument; failed calls
are skipped. `argue r a` is the outcome of the reasoning call for agent
`a` in round index `r`. -/
def debateRound (argue : ℕ → String → Option String)
    (conflicts : List (String × Position)) (r : ℕ) : List DebateArg :=
  conflicts.filterMap
    (fun p => (argue r p.1).map
      (fun t => { round := r + 1, agent := p.1, position := p.2.verdict, argument := t }))

/-- The three sequential debate rounds of `conduct_debate`
(`max_rounds = 3`), concatenated into the debate history. -/
def debateHistoryAll (argue : ℕ → String → Option String)
    (conflicts : List (String × Position)) : List DebateArg :=
  (List.range 3).foldl (fun h r => h ++ debateRound argue conflicts r) []

/-- `DebateOrchestrator.conduct_debate`: extract positions, detect
conflicts, either record agreement and stop, or run the debate rounds,
resolve by voting, and write the resolved verdict and confidence into the
state. -/
def conductDebate (argue : ℕ → String → Option String) (s : EState) : EState :=
  let positions : List (String × Position) := extractPositions s.agentOutputs
  let conflicts : List (String × Position) := detectConflicts positions
  if conflicts = [] then
    { s with agentOutputs := s.agentOutputs ++ [({ agent := "debate_orchestrator" } : AgentOut)] }
  else
    let s1 := { s with agentOutputs := s.agentOutputs ++
      [({ agent := "debate_orchestrator",
          conflictingAgents := some (List.map Prod.fst conflicts) } : AgentOut)] }
    let history := debateHistoryAll argue conflicts
    let fv := resolveByVoting positions history
    { s1 with
      confidence := fv.confidence,
      riskLevel := fv.verdict,
      agentOutputs := s1.agentOutputs ++
        [({ agent := "debate_resolution", confidence := some fv.confidence } : AgentOut)] }

/-! ## Confidence monitor -/

/-- Agents whose outputs `ConfidenceMonitor.check_confidence` excludes
from the average. -/
def monitorMetaAgents : List String := ["supervisor", "debate_orchestrator", "debate_resolution"]

/-- The confidences `check_confidence` averages: outputs that carry a
confidence key, are not from a meta agent, and carry no error key. -/
def monitorConfidences (outs : List AgentOut) : List ℚ :=
  outs.filterMap
    (fun o => if o.agent ∈ monitorMetaAgents ∨ o.error.isSome then none else o.confidence)

/-- Average of a confidence list, defaulting to 0.5 when empty. -/
def avgOrHalf (l : List ℚ) : ℚ := if l = [] then 1/2 else l.sum / (l.length : ℚ)

/-- Predicate selecting the debate outputs the monitor inspects. -/
def isDebateOut (o : AgentOut) : Bool :=
  o.agent = "debate_orchestrator" ∨ o.agent = "debate_resolution"

/-- Multiplicative penalty factor one debate output applies to the
average: outputs with a nonempty `conflicting_agents` list reduce the
confidence by `min(0.25, (k/13) * 0.30)` where `k` is the length of that
list and 13 is the hardcoded analytical-agent count. -/
def debatePenaltyFactor (o : AgentOut) : ℚ :=
  let conflicting := o.conflictingAgents.getD []
  if conflicting.length > 0 then
    1 - min (1/4) (((conflicting.length : ℚ) / 13) * (3/10))
  else 1

/-- Result fields of one `check_confidence` call. -/
structure MonOut where
  confidence : ℚ
  needsRevision : Bool
  iterationCount : ℕ
deriving DecidableEq, Repr

/-- The revise-or-finalize decision of `check_confidence`: revise (and
increment the iteration counter) exactly when the computed confidence is
below 0.5 and the counter is below the cap. -/
def monitorDecision (maxIterations : ℕ) (conf : ℚ) (iterationCount : ℕ) : MonOut :=
  if conf < 1/2 ∧ iterationCount < maxIterations then
    { confidence := conf, needsRevision := true, iterationCount := iterationCount + 1 }
  else
    { confidence := conf, needsRevision := false, iterationCount := iterationCount }

/-- Core of `ConfidenceMonitor.check_confidence`: the averaged
confidence, multiplied in turn by the penalty factor of every debate
output, followed by the revise-or-finalize decision. -/
def checkConfidence (maxIterations : ℕ) (outs : List AgentOut)
    (iterationCount : ℕ) : MonOut :=
  monitorDecision maxIterations
    ((outs.filter isDebateOut).foldl (fun a o => a * debatePenaltyFactor o)
      (avgOrHalf (monitorConfidences outs)))
    iterationCount

/-- State-level `check_confidence`: writes the computed confidence and
decision into the record and appends the monitor log entry (which
carries no confidence key). -/
def checkConfidenceState (maxIterations : ℕ) (s : EState) : EState :=
  let r := checkConfidence maxIterations s.agentOutputs s.iterationCount
  { s with
    confidence := r.confidence,
    needsRevision := r.needsRevision,
    iterationCount := r.iterationCount,
    agentOutputs := s.agentOutputs ++ [({ agent := "confidence_monitor" } : AgentOut)] }

/-- The consensus fields the specification says the monitor consumes. -/
structure ConsensusLite where
  conflictingStepIds : List String
  conflictRatio : ℚ
deriving DecidableEq, Repr

/-- Monitor formalized from the words of the specification, for
comparison with `checkConfidence`: the same average, penalized once by
`min(0.25, conflictRatio * 0.30)` using the conflict ratio of the
consensus result when a consensus result with conflicting steps exists. -/
def specCheckConfidence (maxIterations : ℕ) (consensus : Option ConsensusLite)
    (outs : List AgentOut) (iterationCount : ℕ) : MonOut :=
  monitorDecision maxIterations
    (match consensus with
     | some c =>
         if c.conflictingStepIds.length > 0 then
           avgOrHalf (monitorConfidences outs) * (1 - min (1/4) (c.conflictRatio * (3/10)))
         else avgOrHalf (monitorConfidences outs)
     | none => avgOrHalf (monitorConfidences outs))
    iterationCount

/-- Iterated monitor runs: `passes k` is the list of agent outputs the
monitor sees on its `k`-th invocation (the step outcomes of that pass
are arbitrary); the iteration counter is threaded from call to call
starting at 0. `monitorRun passes k` is the monitor result of call `k`. -/
def monitorRun (passes : ℕ → List AgentOut) : ℕ → MonOut
  | 0 => checkConfidence 2 (passes 0) 0
  | k + 1 => checkConfidence 2 (passes (k + 1)) (monitorRun passes k).iterationCount

/-! ## Step adapter wrappers (agent_wrappers.py)

Each node takes the outcome of its external analysis call as an
`Except String _` value: `.error e` is the exception branch, `.ok r` the
success branch with `r` the normalized call result. A payload modelled
as `Option _` distinguishes a dictionary result carrying the relevant
keys (`some`) from a result without them (`none`, covering the non-dict
and empty cases of the source). -/

/-- Successful claim-extraction result: rendered payload text and the
optional `confidence` key of a dictionary result (default 0.8). -/
structure ClaimOk where
  text : String
  confidence : Option ℚ
deriving DecidableEq, Repr

/-- `claim_extraction_node`: success appends the extraction output; any
exception is caught and recorded as an error output with confidence 0.5. -/
def claimExtractionNode (call : Except String ClaimOk) (s : EState) : EState :=
  match call with
  | .ok r =>
      { s with agentOutputs := s.agentOutputs ++
        [({ agent := "claim_extraction", output := some r.text,
            confidence := some (r.confidence.getD (4/5)) } : AgentOut)] }
  | .error e =>
      { s with agentOutputs := s.agentOutputs ++
        [({ agent := "claim_extraction", error := some e,
            confidence := some (1/2) } : AgentOut)] }

/-- Successful evidence-retrieval result: the evidence list and the
optional `confidence` key (default 0.7). -/
structure EvidenceOk where
  text : String
  evidence : List String
  confidence : Option ℚ
deriving DecidableEq, Repr

/-- `evidence_retrieval_node`: success extends the shared evidence list
and appends the output; any exception is caught and recorded as an error
output with confidence 0.3. -/
def evidenceRetrievalNode (call : Except String EvidenceOk) (s : EState) : EState :=
  match call with
  | .ok r =>
      { s with
        evidence := s.evidence ++ r.evidence,
        agentOutputs := s.agentOutputs ++
          [({ agent := "evidence_retrieval", output := some r.text,
              confidence := some (r.confidence.getD (7/10)) } : AgentOut)] }
  | .error e =>
      { s with agentOutputs := s.agentOutputs ++
        [({ agent := "evidence_retrieval", error := some e,
            confidence := some (3/10) } : AgentOut)] }

/-- Successful contradiction-analysis result: the contradiction count
and the optional `confidence` key (default 0.75). -/
structure ContradictionOk where
  text : String
  count : ℕ
  confidence : Option ℚ
deriving DecidableEq, Repr

/-- `contradiction_analysis_node`: success records the contradiction
count; exceptions become an error output with confidence 0.5. -/
def contradictionAnalysisNode (call : Except String ContradictionOk) (s : EState) : EState :=
  match call with
  | .ok r =>
      { s with agentOutputs := s.agentOutputs ++
        [({ agent := "contradiction_analysis", output := some r.text,
            contradictionsCount := some r.count,
            confidence := some (r.confidence.getD (3/4)) } : AgentOut)] }
  | .error e =>
      { s with agentOutputs := s.agentOutputs ++
        [({ agent := "contradiction_analysis", error := some e,
            confidence := some (1/2) } : AgentOut)] }

/-- `temporal_analysis_node`: success stores the historical payload with
confidence 0.7 for a dictionary result and 0.5 otherwise (`none` models
a non-dictionary or empty payload, which downstream code treats as
absent); exceptions become an error output with confidence 0.5. -/
def temporalAnalysisNode (call : Except String (Option HistData)) (s : EState) : EState :=
  match call with
  | .ok r =>
      { s with agentOutputs := s.agentOutputs ++
        [({ agent := "temporal_analysis", histPayload := r,
            confidence := some (if r.isSome then 7/10 else 1/2) } : AgentOut)] }
  | .error e =>
      { s with agentOutputs := s.agentOutputs ++
        [({ agent := "temporal_analysis", error := some e,
            confidence := some (1/2) } : AgentOut)] }

/-- Generic successful analysis result: payload text and the optional
`confidence` key of a dictionary result. -/
structure GenericOk where
  text : String
  confidence : Option ℚ
deriving DecidableEq, Repr

/-- `peer_comparison_node`: default confidence 0.75; exceptions become
an error output with confidence 0.5. -/
def peerComparisonNode (call : Except String GenericOk) (s : EState) : EState :=
  match call with
  | .ok r =>
      { s with agentOutputs := s.agentOutputs ++
        [({ agent := "peer_comparison", output := some r.text,
            confidence := some (r.confidence.getD (3/4)) } : AgentOut)] }
  | .error e =>
      { s with agentOutputs := s.agentOutputs ++
        [({ agent := "peer_comparison", error := some e,
            confidence := some (1/2) } : AgentOut)] }

/-- `credibility_analysis_node`: default confidence 0.75; exceptions
become an error output with confidence 0.5. -/
def credibilityAnalysisNode (call : Except String GenericOk) (s : EState) : EState :=
  match call with
  | .ok r =>
      { s with agentOutputs := s.agentOutputs ++
        [({ agent := "credibility_analysis", output := some r.text,
            confidence := some (r.confidence.getD (3/4)) } : AgentOut)] }
  | .error e =>
      { s with agentOutputs := s.agentOutputs ++
        [({ agent := "credibility_analysis", error := some e,
            confidence := some (1/2) } : AgentOut)] }

/-- `sentiment_analysis_node`: default confidence 0.7; exceptions become
an error output with confidence 0.5. -/
def sentimentAnalysisNode (call : Except String GenericOk) (s : EState) : EState :=
  match call with
  | .ok r =>
      { s with agentOutputs := s.agentOutputs ++
        [({ agent := "sentiment_analysis", output := some r.text,
            confidence := some (r.confidence.getD (7/10)) } : AgentOut)] }
  | .error e =>
      { s with agentOutputs := s.agentOutputs ++
        [({ agent := "sentiment_analysis", error := some e,
            confidence := some (1/2) } : AgentOut)] }

/-- `realtime_monitoring_node`: a dictionary result (`some articles`)
appends each article to the evidence and reports confidence 0.8 when
articles were found and 0.5 otherwise; a non-dictionary result keeps the
initial confidence 0.7; exceptions become an error output with
confidence 0.5. -/
def realtimeMonitoringNode (call : Except String (Option (List String))) (s : EState) : EState :=
  match call with
  | .ok (some articles) =>
      { s with
        evidence := s.evidence ++ articles,
        agentOutputs := s.agentOutputs ++
          [({ agent := "realtime_monitoring",
              confidence := some (if articles.length > 0 then 4/5 else 1/2) } : AgentOut)] }
  | .ok none =>
      { s with agentOutputs := s.agentOutputs ++
        [({ agent := "realtime_monitoring", confidence := some (7/10) } : AgentOut)] }
  | .error e =>
      { s with agentOutputs := s.agentOutputs ++
        [({ agent := "realtime_monitoring", error := some e,
            confidence := some (1/2) } : AgentOut)] }

/-- Successful risk-scoring dictionary result: the optional `risk_level`
key (default MODERATE) and the optional `confidence` key (default 0.8). -/
structure RiskOk where
  riskLevel : Option Verdict
  confidence : Option ℚ
deriving DecidableEq, Repr

/-- `risk_scoring_node`: success writes the returned risk level into the
state (`none` models a non-dictionary result, mapped to MODERATE with
confidence 0.5); an exception writes MODERATE into the state and records
an error output with confidence 0.5. -/
def riskScoringNode (call : Except String (Option RiskOk)) (s : EState) : EState :=
  match call with
  | .ok r =>
      let rl := match r with | some d => d.riskLevel.getD .moderate | none => .moderate
      let c : ℚ := match r with | some d => d.confidence.getD (4/5) | none => 1/2
      { s with
        riskLevel := rl,
        agentOutputs := s.agentOutputs ++
          [({ agent := "risk_scoring", riskLevel := some rl,
              confidence := some c } : AgentOut)] }
  | .error e =>
      { s with
        riskLevel := .moderate,
        agentOutputs := s.agentOutputs ++
          [({ agent := "risk_scoring", error := some e,
              confidence := some (1/2) } : AgentOut)] }

/-- Confidences averaged by `confidence_scoring_node`: every output that
carries a confidence key and no error key (no meta-agent exclusion
here). -/
def scoringConfidences (outs : List AgentOut) : List ℚ :=
  outs.filterMap (fun o => if o.error.isSome then none else o.confidence)

/-- `confidence_scoring_node`: writes the average confidence of the
successful outputs (0.5 when there are none) into the state and appends
its own output. -/
def confidenceScoringNode (s : EState) : EState :=
  let avg := avgOrHalf (scoringConfidences s.agentOutputs)
  { s with
    confidence := avg,
    agentOutputs := s.agentOutputs ++
      [({ agent := "confidence_scoring", confidence := some avg } : AgentOut)] }

/-! ## Verdict synthesizer (verdict_generation_node) -/

/-- The `is_legitimate_carbon_claim` test: recognized carbon-accounting
terminology together with specific metrics and a dated claim. -/
def isLegitCarbon (f : ClaimFlags) : Bool :=
  f.legitTerm && f.hasMetrics && f.hasYear

/-- The `absolute_detected` test: an absolute-claim pattern matches and
the claim is not a legitimate carbon claim. -/
def absoluteDetected (f : ClaimFlags) : Bool :=
  f.absolutePattern && !(isLegitCarbon f)

/-- The five high-risk sectors of priority 6. -/
def highRiskSectors : List String :=
  ["Energy", "Automotive", "Aviation", "Mining", "Oil & Gas"]

/-- Historical payload read by the synthesizer: the payload of the first
`temporal_analysis` output (absent or empty payloads yield `none`, which
the source treats as falsy). -/
def findHistorical (outs : List AgentOut) : Option HistData :=
  match outs.find? (fun o => o.agent = "temporal_analysis") with
  | some o => o.histPayload
  | none => none

/-- Contradiction count read by the synthesizer: the
`contradictions_count` key of the first `contradiction_analysis` output,
defaulting to 0. -/
def findContradictionCount (outs : List AgentOut) : ℕ :=
  match outs.find? (fun o => o.agent = "contradiction_analysis") with
  | some o => o.contradictionsCount.getD 0
  | none => 0

/-- Debate conflict ratio read by the synthesizer: the maximum
`conflict_ratio` key over the debate outputs, each defaulting to 0. -/
def findDebateConflictRatio (outs : List AgentOut) : ℚ :=
  (outs.filter isDebateOut).foldl (fun m o => max m (o.conflictRatio.getD 0)) 0

/-- The priority-ordered rule cascade of `verdict_generation_node`,
written as a function of the pattern flags, the sector, the inputs
gathered from the agent outputs, and the current risk level and
confidence. Returns the final risk level and confidence. -/
def verdictCascade (f : ClaimFlags) (industry : String) (hist : Option HistData)
    (contradictionCount : ℕ) (debateConflictRatio : ℚ)
    (risk0 : Verdict) (conf0 : ℚ) : Verdict × ℚ :=
  -- Priority 1 / 1.5 / 2: absolute pattern, verified carbon claim,
  -- historical intelligence (a single if/elif chain in the source).
  let p2 : Verdict × ℚ :=
    if absoluteDetected f then
      (.high, min (conf0 * (3/5)) (3/4))
    else if isLegitCarbon f then
      if risk0 = .moderate ∨ risk0 = .high then
        (.low, min (conf0 * (11/10)) (17/20))
      else (risk0, conf0)
    else
      match hist with
      | some h =>
          if h.reputationScore < 40 ∧ h.pastViolations ≥ 1 then
            (.high, min (conf0 * (7/10)) (4/5))
          else if h.gwPatternDetected ∧ h.gwPriorAccusations ≥ 2 then
            (.high, min (conf0 * (13/20)) (3/4))
          else if h.decliningTrend ∧ risk0 = .moderate then
            (.high, conf0 * (4/5))
          else if h.reactiveClaims ∧ risk0 = .moderate then
            (.high, conf0 * (3/4))
          else (risk0, conf0)
      | none => (risk0, conf0)
  -- Priority 3: contradiction count.
  let p3 : Verdict × ℚ :=
    if contradictionCount ≥ 3 ∧ p2.1 = .moderate then (.high, p2.2 * (3/4)) else p2
  -- Priority 4: debate conflict ratio.
  let p4 : Verdict × ℚ :=
    if debateConflictRatio ≥ 60/100 ∧ p3.1 = .moderate then (.high, p3.2 * (3/4)) else p3
  -- Priority 5: superlative language.
  let p5 : Verdict × ℚ :=
    if f.superlative ∧ p4.1 = .moderate then (.high, p4.2 * (7/10)) else p4
  -- Priority 6: vague claim in a high-risk sector.
  if industry ∈ highRiskSectors ∧ f.vagueKeywordCount ≥ 2 ∧ f.hasMetricsP6 = false
      ∧ p5.1 = .moderate then
    (.high, p5.2 * (4/5))
  else p5

/-- `verdict_generation_node`: runs the cascade on the state, writes the
resulting risk level and confidence, sets the final verdict, and appends
its output. -/
def verdictGenerationNode (s : EState) : EState :=
  let rc := verdictCascade s.claim s.industry (findHistorical s.agentOutputs)
    (findContradictionCount s.agentOutputs) (findDebateConflictRatio s.agentOutputs)
    s.riskLevel s.confidence
  { s with
    riskLevel := rc.1,
    confidence := rc.2,
    finalVerdict := some { riskLevel := rc.1, confidence := rc.2 },
    agentOutputs := s.agentOutputs ++
      [({ agent := "verdict_generation", confidence := some rc.2 } : AgentOut)] }

/-- `report_generation_node`: sets the report text (opaque formatting)
and appends its output with confidence 0.9. -/
def reportGenerationNode (s : EState) : EState :=
  { s with
    report := some "ESG GREENWASHING ANALYSIS REPORT",
    agentOutputs := s.agentOutputs ++
      [({ agent := "report_generation", confidence := some (9/10) } : AgentOut)] }

/-- The STANDARD track of `build_phase2_graph`: the eleven wrapped steps
in graph order, each analysis step parameterized by the outcome of its
external call. -/
def standardPath (o1 : Except String ClaimOk) (o2 : Except String EvidenceOk)
    (o3 : Except String ContradictionOk) (o4 : Except String (Option HistData))
    (o5 : Except String GenericOk) (o6 : Except String GenericOk)
    (o7 : Except String GenericOk) (o8 : Except String (Option (List String)))
    (o9 : Except String (Option RiskOk)) (s : EState) : EState :=
  reportGenerationNode (verdictGenerationNode (confidenceScoringNode
    (riskScoringNode o9 (realtimeMonitoringNode o8 (sentimentAnalysisNode o7
      (credibilityAnalysisNode o6 (peerComparisonNode o5 (temporalAnalysisNode o4
        (contradictionAnalysisNode o3 (evidenceRetrievalNode o2
          (claimExtractionNode o1 s)))))))))))

/-! ## Concrete scenario states used by witnesses and counterexamples -/

/-- A generic initial state: neutral claim flags, a sector outside the
high-risk list, no outputs yet. -/
def initState : EState :=
  { company := "ACME", industry := "Pharma",
    claim := { absolutePattern := false, legitTerm := false, hasMetrics := false,
               hasYear := false, superlative := false, vagueKeywordCount := 0,
               hasMetricsP6 := false },
    complexityScore := 1/2, workflowPath := some .standardTrack, evidence := [],
    confidence := 0, riskLevel := .moderate, agentOutputs := [],
    iterationCount := 0, needsRevision := false, finalVerdict := none,
    report := none }

/-- Voting scenario: one position with confidence 0.9 for HIGH, four
positions with confidence 0.1 for LOW (conflict ratio 4/5). -/
def c2Positions : List (String × Position) :=
  [("risk_scoring", { verdict := .high, confidence := 9/10 }),
   ("sentiment_analysis", { verdict := .low, confidence := 1/10 }),
   ("credibility_analysis", { verdict := .low, confidence := 1/10 }),
   ("peer_comparison", { verdict := .low, confidence := 1/10 }),
   ("temporal_analysis", { verdict := .low, confidence := 1/10 })]

/-- Tied-vote scenario: 0.3 and 0.39 both truncate to 3 votes, while the
aggregate confidence is strictly higher on the second position. -/
def c9Positions : List (String × Position) :=
  [("risk_scoring", { verdict := .high, confidence := 3/10 }),
   ("sentiment_analysis", { verdict := .low, confidence := 39/100 })]

/-- Monitor scenario: two conflicting analytical outputs plus the
conflict-detection entry appended by the debate orchestrator. -/
def c3Outputs : List AgentOut :=
  [{ agent := "risk_scoring", confidence := some (9/10), riskLevel := some .high },
   { agent := "contradiction_analysis", confidence := some (2/5),
     contradictionsCount := some 0 },
   { agent := "debate_orchestrator",
     conflictingAgents := some ["risk_scoring", "contradiction_analysis"] }]

/-- Debate scenario state: two conflicting analytical outputs recorded,
confidence and risk level still at their pre-debate values. -/
def c10DebateState : EState :=
  { initState with
    confidence := 1/5, riskLevel := .low,
    agentOutputs :=
      [{ agent := "risk_scoring", confidence := some (9/10), riskLevel := some .high },
       { agent := "contradiction_analysis", confidence := some (2/5),
         contradictionsCount := some 0 }] }

/-- The all-steps-fail STANDARD run on the initial state. -/
def c8Run : EState :=
  standardPath (.error "e1") (.error "e2") (.error "e3") (.error "e4") (.error "e5")
    (.error "e6") (.error "e7") (.error "e8") (.error "e9") initState

/-! ## Helper lemmas -/

theorem keysFold_mem (l acc : List Verdict) (x : Verdict) :
    x ∈ l.foldl (fun acc v => if v ∈ acc then acc else acc ++ [v]) acc ↔
      x ∈ acc ∨ x ∈ l := by
  induction l generalizing acc with
  | nil => simp
  | cons v l ih =>
    simp only [List.foldl_cons]
    rw [ih]
    by_cases hv : v ∈ acc
    · simp only [if_pos hv, List.mem_cons]
      constructor
      · rintro (h | h)
        · exact Or.inl h
        · exact Or.inr (Or.inr h)
      · rintro (h | h | h)
        · exact Or.inl h
        · exact Or.inl (h ▸ hv)
        · exact Or.inr h
    · simp only [if_neg hv, List.mem_append, List.mem_singleton, List.mem_cons]
      tauto

theorem mem_keysInOrder (l : List Verdict) (x : Verdict) :
    x ∈ keysInOrder l ↔ x ∈ l := by
  unfold keysInOrder
  rw [keysFold_mem]
  simp

theorem pickFold_keep (l ks : List Verdict) (a : Verdict)
    (h : ∀ v ∈ ks, l.count v ≤ l.count a) :
    ks.foldl (pickStep l) (some a) = some a := by
  induction ks with
  | nil => rfl
  | cons k ks ih =>
    have hk : l.count k ≤ l.count a := h k (by simp)
    have hstep : pickStep l (some a) k = some a := by
      show (if l.count a < l.count k then some k else some a) = some a
      rw [if_neg (by omega)]
    rw [List.foldl_cons, hstep]
    exact ih (fun v hv => h v (by simp [hv]))

theorem pickFold_wins (l : List Verdict) (w : Verdict)
    (hmax : ∀ v ∈ l, v ≠ w → l.count v < l.count w) :
    ∀ (ks : List Verdict) (acc : Option Verdict), w ∈ ks → (∀ v ∈ ks, v ∈ l) →
      (acc = none ∨ ∃ a, acc = some a ∧ l.count a < l.count w) →
      ks.foldl (pickStep l) acc = some w := by
  intro ks
  induction ks with
  | nil => intro acc hw; simp at hw
  | cons k ks ih =>
    intro acc hw hsub hacc
    rw [List.foldl_cons]
    by_cases hkw : k = w
    · rw [hkw]
      have hstep : pickStep l acc w = some w := by
        rcases hacc with h | ⟨a, ha, hlt⟩
        · rw [h]; rfl
        · rw [ha]
          show (if l.count a < l.count w then some w else some a) = some w
          rw [if_pos hlt]
      rw [hstep]
      exact pickFold_keep l ks w (fun v hv => by
        by_cases hvw : v = w
        · rw [hvw]
        · exact le_of_lt (hmax v (hsub v (by simp [hv])) hvw))
    · have hw' : w ∈ ks := by
        rcases List.mem_cons.mp hw with h | h
        · exact absurd h.symm hkw
        · exact h
      have hk : l.count k < l.count w := hmax k (hsub k (by simp)) hkw
      apply ih _ hw' (fun v hv => hsub v (by simp [hv]))
      rcases hacc with h | ⟨a, ha, hlt⟩
      · rw [h]
        exact Or.inr ⟨k, rfl, hk⟩
      · rw [ha]
        have hcase : pickStep l (some a) k = some k ∨ pickStep l (some a) k = some a := by
          show (if l.count a < l.count k then some k else some a) = some k ∨
            (if l.count a < l.count k then some k else some a) = some a
          by_cases hcmp : l.count a < l.count k
          · exact Or.inl (if_pos hcmp)
          · exact Or.inr (if_neg hcmp)
        rcases hcase with h | h
        · rw [h]
          exact Or.inr ⟨k, rfl, hk⟩
        · rw [h]
          exact Or.inr ⟨a, rfl, hlt⟩

theorem pickMost_of_strict_max (l : List Verdict) (w : Verdict) (hw : w ∈ l)
    (hmax : ∀ v ∈ l, v ≠ w → l.count v < l.count w) :
    pickMost l = some w := by
  unfold pickMost
  exact pickFold_wins l w hmax (keysInOrder l) none
    ((mem_keysInOrder l w).mpr hw)
    (fun v hv => (mem_keysInOrder l v).mp hv)
    (Or.inl rfl)

theorem resolveByVoting_verdict_of_pick (positions : List (String × Position))
    (h : List DebateArg) (w : Verdict)
    (hpick : pickMost (weightedVotes positions) = some w) :
    (resolveByVoting positions h).verdict = w := by
  unfold resolveByVoting
  rw [hpick]

theorem resolveByVoting_eq_of_pick (positions : List (String × Position))
    (h : List DebateArg) (w : Verdict)
    (hpick : pickMost (weightedVotes positions) = some w) :
    resolveByVoting positions h =
      { verdict := w,
        confidence := rbvConfidence positions h w,
        consensusStrength := some (rbvConsensus positions w),
        conflictingAgents := rbvConflicting positions w,
        conflictRatio := some (rbvConflictRatio positions w),
        totalAgents := some positions.length } := by
  unfold resolveByVoting
  rw [hpick]

theorem voteWeight_eval (c : ℚ) (n : ℕ) (h1 : (n : ℚ) ≤ c * 10) (h2 : c * 10 < n + 1) :
    voteWeight c = n := by
  unfold voteWeight
  have hfl : ⌊c * 10⌋ = (n : ℤ) := by
    rw [Int.floor_eq_iff]
    constructor
    · exact_mod_cast h1
    · push_cast
      exact h2
  rw [hfl]
  simp

theorem keysFold_replicate (acc : List Verdict) (v : Verdict) (n : ℕ) (hn : 0 < n) :
    (List.replicate n v).foldl (fun acc v => if v ∈ acc then acc else acc ++ [v]) acc =
      if v ∈ acc then acc else acc ++ [v] := by
  induction n generalizing acc with
  | zero => omega
  | succ n ih =>
    rw [List.replicate_succ, List.foldl_cons]
    cases n with
    | zero => simp [List.replicate]
    | succ m =>
      rw [ih _ (Nat.succ_pos m)]
      by_cases hv : v ∈ acc <;> simp [hv]

theorem routeWorkflow_factors (s : ℚ) :
    routeWorkflow s =
      (if bucket s = 0 then .fastTrack else if bucket s = 1 then .standardTrack
       else .deepAnalysis) := by
  unfold routeWorkflow bucket
  split_ifs <;> simp_all

/-! ## Claim theorems -/

/-- C5: path selection is a pure function of the complexity score, given
by the fixed threshold table (score below 0.3 maps to the fast track,
scores in [0.3, 0.7) to the standard track, scores of 0.7 and above to
deep analysis), so any two scores in the same threshold bucket are routed
to the same path. -/
theorem c5_routing_threshold_table :
    (∀ s : ℚ, s < 3/10 → routeWorkflow s = .fastTrack) ∧
    (∀ s : ℚ, 3/10 ≤ s → s < 7/10 → routeWorkflow s = .standardTrack) ∧
    (∀ s : ℚ, 7/10 ≤ s → routeWorkflow s = .deepAnalysis) ∧
    (∀ s1 s2 : ℚ, s1 < s2 → bucket s1 = bucket s2 →
      routeWorkflow s1 = routeWorkflow s2) := by
  refine ⟨?_, ?_, ?_, ?_⟩
  · intro s h
    simp [routeWorkflow, h]
  · intro s h1 h2
    simp [routeWorkflow, h2, not_lt.mpr h1]
  · intro s h
    have h3 : ¬s < 3/10 := not_lt.mpr (by linarith)
    have h7 : ¬s < 7/10 := not_lt.mpr h
    simp [routeWorkflow, h3, h7]
  · intro s1 s2 _ hb
    rw [routeWorkflow_factors, routeWorkflow_factors, hb]

/-- Witness for C5 at concrete scores 0.1, 0.5, 0.9 and the same-bucket
pair 0.4 and 0.5. -/
theorem c5_witness :
    routeWorkflow (1/10) = .fastTrack ∧ routeWorkflow (1/2) = .standardTrack ∧
    routeWorkflow (9/10) = .deepAnalysis ∧ routeWorkflow (2/5) = routeWorkflow (1/2) :=
  ⟨c5_routing_threshold_table.1 (1/10) (by norm_num),
   c5_routing_threshold_table.2.1 (1/2) (by norm_num) (by norm_num),
   c5_routing_threshold_table.2.2.1 (9/10) (by norm_num),
   c5_routing_threshold_table.2.2.2 (2/5) (1/2) (by norm_num)
     (by norm_num [bucket])⟩

/-- C1: in the voting resolution every step casts the floor of ten times
its confidence as identical votes for its verdict, and a verdict whose
vote tally strictly exceeds every other tally wins; in particular a
single step at confidence 0.9 (9 votes) for one verdict beats five steps
at confidence 0.1 (1 vote each, 5 votes total) for another. -/
theorem c1_voting_weight_dominance :
    (∀ (positions : List (String × Position)) (h : List DebateArg) (w : Verdict),
      w ∈ weightedVotes positions →
      (∀ v ∈ weightedVotes positions, v ≠ w →
        (weightedVotes positions).count v < (weightedVotes positions).count w) →
      (resolveByVoting positions h).verdict = w) ∧
    (∀ (a b1 b2 b3 b4 b5 : String) (vA vB : Verdict) (h : List DebateArg), vA ≠ vB →
      weightedVotes [(a, ⟨vA, 9/10⟩), (b1, ⟨vB, 1/10⟩), (b2, ⟨vB, 1/10⟩),
          (b3, ⟨vB, 1/10⟩), (b4, ⟨vB, 1/10⟩), (b5, ⟨vB, 1/10⟩)] =
        List.replicate 9 vA ++ List.replicate 5 vB ∧
      (resolveByVoting [(a, ⟨vA, 9/10⟩), (b1, ⟨vB, 1/10⟩), (b2, ⟨vB, 1/10⟩),
          (b3, ⟨vB, 1/10⟩), (b4, ⟨vB, 1/10⟩), (b5, ⟨vB, 1/10⟩)] h).verdict = vA) := by
  constructor
  · intro positions h w hmem hmax
    exact resolveByVoting_verdict_of_pick positions h w
      (pickMost_of_strict_max _ w hmem hmax)
  · intro a b1 b2 b3 b4 b5 vA vB h hne
    have h9 : voteWeight (9/10) = 9 := voteWeight_eval _ _ (by norm_num) (by norm_num)
    have h1 : voteWeight (1/10) = 1 := voteWeight_eval _ _ (by norm_num) (by norm_num)
    have hw : weightedVotes [(a, ⟨vA, 9/10⟩), (b1, ⟨vB, 1/10⟩), (b2, ⟨vB, 1/10⟩),
        (b3, ⟨vB, 1/10⟩), (b4, ⟨vB, 1/10⟩), (b5, ⟨vB, 1/10⟩)] =
        List.replicate 9 vA ++ List.replicate 5 vB := by
      simp only [weightedVotes, List.map_cons, List.map_nil, List.flatten_cons,
        List.flatten_nil, h9, h1, List.append_nil]
      rfl
    refine ⟨hw, ?_⟩
    have hcA : (List.replicate 9 vA ++ List.replicate 5 vB).count vA = 9 := by
      simp [List.count_append, List.count_replicate, hne, Ne.symm hne]
    have hcB : (List.replicate 9 vA ++ List.replicate 5 vB).count vB = 5 := by
      simp [List.count_append, List.count_replicate, hne, Ne.symm hne]
    apply resolveByVoting_verdict_of_pick
    apply pickMost_of_strict_max
    · rw [hw]
      simp
    · intro v hv hvne
      rw [hw] at hv ⊢
      rcases (by simpa using hv : v = vA ∨ v = vB) with rfl | rfl
      · exact absurd rfl hvne
      · rw [hcA, hcB]
        omega

/-- Witness for C1: the 0.9-versus-five-0.1 scenario with HIGH against
LOW resolves to HIGH. -/
theorem c1_witness :
    (resolveByVoting [("s1", ⟨.high, 9/10⟩), ("s2", ⟨.low, 1/10⟩), ("s3", ⟨.low, 1/10⟩),
      ("s4", ⟨.low, 1/10⟩), ("s5", ⟨.low, 1/10⟩), ("s6", ⟨.low, 1/10⟩)] []).verdict =
      Verdict.high :=
  (c1_voting_weight_dominance.2 "s1" "s2" "s3" "s4" "s5" "s6" .high .low []
    (by decide)).2


/-- C9 counterexample: with positions HIGH at confidence 0.3 and LOW at
confidence 0.39 the vote counts tie at three votes each and LOW has the
strictly larger aggregate raw confidence sum, yet the resolver returns
HIGH (the earlier-listed verdict), not LOW and not MODERATE. -/
theorem c9_counterexample :
    (weightedVotes c9Positions).count Verdict.high =
      (weightedVotes c9Positions).count Verdict.low ∧
    confSum c9Positions Verdict.high < confSum c9Positions Verdict.low ∧
    (resolveByVoting c9Positions []).verdict = Verdict.high := by
  have h3 : voteWeight (3/10) = 3 := voteWeight_eval _ _ (by norm_num) (by norm_num)
  have h39 : voteWeight (39/100) = 3 := voteWeight_eval _ _ (by norm_num) (by norm_num)
  refine ⟨?_, ?_, ?_⟩
  · simp [c9Positions, weightedVotes, h3, h39, List.count_cons]
  · have hh : confSum c9Positions Verdict.high = 3/10 := by
      simp [confSum, c9Positions]
    have hl : confSum c9Positions Verdict.low = 39/100 := by
      simp [confSum, c9Positions]
    rw [hh, hl]
    norm_num
  · simp [resolveByVoting, c9Positions, weightedVotes, h3, h39, pickMost,
      keysInOrder, pickStep, List.count_cons]

/-- C9 amended: when vote counts tie, the winner is the verdict of the
earlier-listed position (insertion order of the weighted vote list), not
the verdict with the higher aggregate confidence sum; MODERATE is
returned only in the fallback case where there are no votes at all. -/
theorem c9_amended_tiebreak :
    (∀ (a b : String) (v1 v2 : Verdict) (c1 c2 : ℚ) (h : List DebateArg),
      v1 ≠ v2 → voteWeight c1 = voteWeight c2 → 0 < voteWeight c1 →
      (resolveByVoting [(a, ⟨v1, c1⟩), (b, ⟨v2, c2⟩)] h).verdict = v1) ∧
    (∀ (positions : List (String × Position)) (h : List DebateArg),
      weightedVotes positions = [] →
      (resolveByVoting positions h).verdict = .moderate ∧
      (resolveByVoting positions h).confidence = 1/2) := by
  constructor
  · intro a b v1 v2 c1 c2 h hne heq hpos
    have hl : weightedVotes [(a, ⟨v1, c1⟩), (b, ⟨v2, c2⟩)] =
        List.replicate (voteWeight c1) v1 ++ List.replicate (voteWeight c2) v2 := by
      simp [weightedVotes]
    have hkeys : keysInOrder (weightedVotes [(a, ⟨v1, c1⟩), (b, ⟨v2, c2⟩)]) = [v1, v2] := by
      rw [hl, keysInOrder, List.foldl_append, keysFold_replicate _ _ _ hpos,
        keysFold_replicate _ _ _ (heq ▸ hpos)]
      simp [hne, Ne.symm hne]
    have hc1 : (weightedVotes [(a, ⟨v1, c1⟩), (b, ⟨v2, c2⟩)]).count v1 = voteWeight c1 := by
      rw [hl]
      simp [List.count_append, List.count_replicate, Ne.symm hne]
    have hc2 : (weightedVotes [(a, ⟨v1, c1⟩), (b, ⟨v2, c2⟩)]).count v2 = voteWeight c2 := by
      rw [hl]
      simp [List.count_append, List.count_replicate, hne]
    have hpick : pickMost (weightedVotes [(a, ⟨v1, c1⟩), (b, ⟨v2, c2⟩)]) = some v1 := by
      rw [pickMost, hkeys]
      simp only [List.foldl_cons, List.foldl_nil, pickStep, hc1, hc2, heq]
      rw [if_neg (lt_irrefl _)]
    exact resolveByVoting_verdict_of_pick _ _ _ hpick
  · intro positions h he
    have hp : pickMost (weightedVotes positions) = none := by
      rw [he]
      rfl
    constructor
    · unfold resolveByVoting
      rw [hp]
    · unfold resolveByVoting
      rw [hp]

/-- Witness for the amended C9 tie-break: the tied 0.3-versus-0.39
scenario resolves to the earlier-listed HIGH, and a single zero-weight
position yields the MODERATE no-vote fallback. -/
theorem c9_witness :
    (resolveByVoting [("x", ⟨.high, 3/10⟩), ("y", ⟨.low, 39/100⟩)] []).verdict =
      Verdict.high ∧
    (resolveByVoting [("z", ⟨.low, 1/100⟩)] []).verdict = Verdict.moderate := by
  have h3 : voteWeight (3/10) = 3 := voteWeight_eval _ _ (by norm_num) (by norm_num)
  have h39 : voteWeight (39/100) = 3 := voteWeight_eval _ _ (by norm_num) (by norm_num)
  have h0 : voteWeight (1/100) = 0 := voteWeight_eval _ _ (by norm_num) (by norm_num)
  constructor
  · exact c9_amended_tiebreak.1 "x" "y" .high .low (3/10) (39/100) []
      (by decide) (by rw [h3, h39]) (by rw [h3]; norm_num)
  · refine (c9_amended_tiebreak.2 [("z", ⟨.low, 1/100⟩)] [] ?_).1
    simp only [weightedVotes, List.map_cons, List.map_nil, h0, List.replicate_zero,
      List.flatten_cons, List.flatten_nil, List.append_nil]

/-- C2: for any voting outcome the resolver reports
consensusStrength equal to winningVotes over totalVotes, the final
confidence equal to that ratio boosted by the debate-quality bonus
min(0.10, 0.01 times the argument count), capped at 0.95, and multiplied
by the discount factor (1 - conflictRatio times 0.30) exactly when
conflictRatio is at least 0.60; at conflictRatio 0.8 the reported
confidence is at most 76 percent of the undiscounted value. -/
theorem c2_consensus_confidence_formula :
    ∀ (positions : List (String × Position)) (h : List DebateArg) (w : Verdict),
      pickMost (weightedVotes positions) = some w →
      (resolveByVoting positions h).consensusStrength =
        some ((((weightedVotes positions).count w : ℚ)) /
          (((weightedVotes positions).length : ℚ))) ∧
      (resolveByVoting positions h).conflictRatio =
        some ((((positions.filter (fun p => p.2.verdict ≠ w)).length : ℚ)) /
          ((max positions.length 1 : ℕ) : ℚ)) ∧
      (resolveByVoting positions h).confidence =
        min (95/100) ((((weightedVotes positions).count w : ℚ)) /
            (((weightedVotes positions).length : ℚ)) +
            min (1/10) ((h.length : ℚ) * (1/100))) *
          (if ((((positions.filter (fun p => p.2.verdict ≠ w)).length : ℚ)) /
              ((max positions.length 1 : ℕ) : ℚ)) ≥ 60/100 then
            1 - ((((positions.filter (fun p => p.2.verdict ≠ w)).length : ℚ)) /
              ((max positions.length 1 : ℕ) : ℚ)) * (3/10)
          else 1) ∧
      (((((positions.filter (fun p => p.2.verdict ≠ w)).length : ℚ)) /
          ((max positions.length 1 : ℕ) : ℚ)) = 4/5 →
        (resolveByVoting positions h).confidence ≤
          (76/100) * min (95/100) ((((weightedVotes positions).count w : ℚ)) /
            (((weightedVotes positions).length : ℚ)) +
            min (1/10) ((h.length : ℚ) * (1/100)))) := by
  intro positions h w hpick
  rw [resolveByVoting_eq_of_pick positions h w hpick]
  refine ⟨rfl, ?_, ?_, ?_⟩
  · show some (rbvConflictRatio positions w) = _
    unfold rbvConflictRatio rbvConflicting
    rw [List.length_map]
  · show rbvConfidence positions h w = _
    unfold rbvConfidence rbvConflictRatio rbvConflicting rbvBoosted rbvConsensus rbvBonus
    rw [List.length_map]
    by_cases hcr : ((((positions.filter (fun p => p.2.verdict ≠ w)).length : ℚ)) /
        ((max positions.length 1 : ℕ) : ℚ)) ≥ 60/100
    · rw [if_pos hcr, if_pos hcr]
    · rw [if_neg hcr, if_neg hcr, mul_one]
  · intro hcr
    show rbvConfidence positions h w ≤ _
    unfold rbvConfidence rbvConflictRatio rbvConflicting rbvBoosted rbvConsensus rbvBonus
    rw [List.length_map, hcr]
    rw [if_pos (by norm_num : (4/5 : ℚ) ≥ 60/100)]
    have h76 : (1 : ℚ) - 4/5 * (3/10) = 76/100 := by norm_num
    rw [h76, mul_comm]

/-- Witness for C2: the 0.9-versus-four-0.1 scenario has conflict ratio
0.8 and its reported confidence is exactly 76 percent of the
undiscounted capped value. -/
theorem c2_witness :
    pickMost (weightedVotes c2Positions) = some Verdict.high ∧
    ((((c2Positions.filter (fun p => p.2.verdict ≠ Verdict.high)).length : ℚ)) /
      ((max c2Positions.length 1 : ℕ) : ℚ)) = 4/5 ∧
    (resolveByVoting c2Positions []).confidence ≤
      (76/100) * min (95/100) ((((weightedVotes c2Positions).count Verdict.high : ℚ)) /
        (((weightedVotes c2Positions).length : ℚ)) +
        min (1/10) ((([] : List DebateArg).length : ℚ) * (1/100))) := by
  have h9 : voteWeight (9/10) = 9 := voteWeight_eval _ _ (by norm_num) (by norm_num)
  have h1 : voteWeight (1/10) = 1 := voteWeight_eval _ _ (by norm_num) (by norm_num)
  have hwv : weightedVotes c2Positions =
      List.replicate 9 Verdict.high ++ List.replicate 4 Verdict.low := by
    simp only [c2Positions, weightedVotes, List.map_cons, List.map_nil, h9, h1,
      List.flatten_cons, List.flatten_nil, List.append_nil]
    rfl
  have hpick : pickMost (weightedVotes c2Positions) = some Verdict.high := by
    apply pickMost_of_strict_max
    · rw [hwv]
      simp
    · intro v hv hne
      rw [hwv] at hv ⊢
      rcases (by simpa using hv : v = Verdict.high ∨ v = Verdict.low) with rfl | rfl
      · exact absurd rfl hne
      · simp [List.count_append, List.count_replicate]
  have hlen : (c2Positions.filter (fun p => p.2.verdict ≠ Verdict.high)).length = 4 := by
    rfl
  have hcr : ((((c2Positions.filter (fun p => p.2.verdict ≠ Verdict.high)).length : ℚ)) /
      ((max c2Positions.length 1 : ℕ) : ℚ)) = 4/5 := by
    rw [hlen, show max c2Positions.length 1 = 5 from rfl]
    norm_num
  exact ⟨hpick, hcr,
    (c2_consensus_confidence_formula c2Positions [] Verdict.high hpick).2.2.2 hcr⟩
theorem foldl_mul_penalty (b : ℚ) (l : List AgentOut) :
    l.foldl (fun a o => a * debatePenaltyFactor o) b =
      b * (l.map debatePenaltyFactor).prod := by
  induction l generalizing b with
  | nil => simp
  | cons o l ih =>
    rw [List.foldl_cons, ih, List.map_cons, List.prod_cons, mul_assoc]

theorem monitorDecision_confidence (m : ℕ) (c : ℚ) (i : ℕ) :
    (monitorDecision m c i).confidence = c := by
  unfold monitorDecision
  split_ifs <;> rfl

theorem monitorDecision_rev_iff (m : ℕ) (c : ℚ) (i : ℕ) :
    (monitorDecision m c i).needsRevision = true ↔ (c < 1/2 ∧ i < m) := by
  unfold monitorDecision
  split_ifs with h
  · simpa using h
  · simpa using h

theorem monitorDecision_iter_rev (m : ℕ) (c : ℚ) (i : ℕ)
    (h : (monitorDecision m c i).needsRevision = true) :
    (monitorDecision m c i).iterationCount = i + 1 ∧ i < m := by
  have hc := (monitorDecision_rev_iff m c i).mp h
  unfold monitorDecision at *
  rw [if_pos ⟨hc.1, hc.2⟩]
  exact ⟨rfl, hc.2⟩

theorem monitorDecision_iter_fin (m : ℕ) (c : ℚ) (i : ℕ)
    (h : (monitorDecision m c i).needsRevision = false) :
    (monitorDecision m c i).iterationCount = i := by
  unfold monitorDecision at h ⊢
  by_cases hc : (c < 1/2 ∧ i < m)
  · rw [if_pos hc] at h
    simp at h
  · rw [if_neg hc]

theorem monitorDecision_fin_of_ge (m : ℕ) (c : ℚ) (i : ℕ) (h : m ≤ i) :
    (monitorDecision m c i).needsRevision = false := by
  unfold monitorDecision
  rw [if_neg (fun hc => absurd hc.2 (not_lt.mpr h))]

theorem monitorRun_zero (passes : ℕ → List AgentOut) :
    monitorRun passes 0 = checkConfidence 2 (passes 0) 0 := rfl

theorem monitorRun_succ (passes : ℕ → List AgentOut) (k : ℕ) :
    monitorRun passes (k + 1) =
      checkConfidence 2 (passes (k + 1)) (monitorRun passes k).iterationCount := rfl

/-- C3 counterexample: on a two-agent conflict scenario the monitor of
the source divides the recorded conflicting-agent count by the hardcoded
13, producing confidence 31/50 = 0.62, while the monitor described by
the specification, fed the conflict ratio 1/2 that the resolver itself
computed for the same scenario, produces 221/400 = 0.5525; the two
disagree. -/
theorem c3_counterexample :
    extractPositions c3Outputs =
      [("risk_scoring", { verdict := .high, confidence := 9/10 }),
       ("contradiction_analysis", { verdict := .low, confidence := 2/5 })] ∧
    (resolveByVoting (extractPositions c3Outputs) []).conflictingAgents =
      ["contradiction_analysis"] ∧
    (resolveByVoting (extractPositions c3Outputs) []).conflictRatio = some (1/2) ∧
    (checkConfidence 2 c3Outputs 0).confidence = 31/50 ∧
    (specCheckConfidence 2
      (some { conflictingStepIds := ["contradiction_analysis"], conflictRatio := 1/2 })
      c3Outputs 0).confidence = 221/400 ∧
    (31/50 : ℚ) ≠ 221/400 := by
  have hex : extractPositions c3Outputs =
      [("risk_scoring", { verdict := .high, confidence := 9/10 }),
       ("contradiction_analysis", { verdict := .low, confidence := 2/5 })] := rfl
  have h9 : voteWeight (9/10) = 9 := voteWeight_eval _ _ (by norm_num) (by norm_num)
  have h4 : voteWeight (2/5) = 4 := voteWeight_eval _ _ (by norm_num) (by norm_num)
  have hwv : weightedVotes (extractPositions c3Outputs) =
      List.replicate 9 Verdict.high ++ List.replicate 4 Verdict.low := by
    rw [hex]
    simp only [weightedVotes, List.map_cons, List.map_nil, h9, h4,
      List.flatten_cons, List.flatten_nil, List.append_nil]
  have hpick : pickMost (weightedVotes (extractPositions c3Outputs)) =
      some Verdict.high := by
    apply pickMost_of_strict_max
    · rw [hwv]
      simp
    · intro v hv hne
      rw [hwv] at hv ⊢
      rcases (by simpa using hv : v = Verdict.high ∨ v = Verdict.low) with rfl | rfl
      · exact absurd rfl hne
      · simp [List.count_append, List.count_replicate]
  have hbase : avgOrHalf (monitorConfidences c3Outputs) = 13/20 := by
    rw [show monitorConfidences c3Outputs = [9/10, 2/5] from rfl]
    unfold avgOrHalf
    rw [if_neg (by simp)]
    show ((9/10 : ℚ) + (2/5 + 0)) / (((2:ℕ) : ℚ)) = 13/20
    norm_num
  refine ⟨hex, ?_, ?_, ?_, ?_, by norm_num⟩
  · rw [resolveByVoting_eq_of_pick _ _ _ hpick]
    rw [hex]
    rfl
  · rw [resolveByVoting_eq_of_pick _ _ _ hpick, hex]
    show some ((((1:ℕ) : ℚ)) / (((2:ℕ)) : ℚ)) = some (1/2)
    norm_num
  · unfold checkConfidence
    rw [monitorDecision_confidence, foldl_mul_penalty, hbase]
    rw [show c3Outputs.filter isDebateOut =
      [{ agent := "debate_orchestrator",
         conflictingAgents := some ["risk_scoring", "contradiction_analysis"] }] from rfl]
    simp only [List.map_cons, List.map_nil, List.prod_cons, List.prod_nil]
    unfold debatePenaltyFactor
    norm_num [min_def]
  · unfold specCheckConfidence
    rw [monitorDecision_confidence]
    show avgOrHalf (monitorConfidences c3Outputs) * (1 - min (1/4) ((1/2) * (3/10))) =
      221/400
    rw [hbase]
    norm_num [min_def]

/-- C3 amended: the monitor averages the confidence of the non-meta
error-free outputs (0.5 when there are none) and multiplies it once per
debate output carrying a nonempty conflicting-agents list by the factor
(1 - min(0.25, (k/13) times 0.30)), where k is the length of that list
and 13 is a hardcoded agent count — not by the conflict ratio of the
consensus result; it then sets needsRevision and increments
iterationCount exactly when the resulting confidence is below 0.5 and
iterationCount is below maxIterations. -/
theorem c3_amended_monitor :
    ∀ (m : ℕ) (outs : List AgentOut) (i : ℕ),
      ((checkConfidence m outs i).confidence =
        avgOrHalf (monitorConfidences outs) *
          ((outs.filter isDebateOut).map debatePenaltyFactor).prod) ∧
      ((checkConfidence m outs i).needsRevision = true ↔
        ((checkConfidence m outs i).confidence < 1/2 ∧ i < m)) ∧
      ((checkConfidence m outs i).needsRevision = true →
        (checkConfidence m outs i).iterationCount = i + 1) ∧
      ((checkConfidence m outs i).needsRevision = false →
        (checkConfidence m outs i).iterationCount = i) := by
  intro m outs i
  unfold checkConfidence
  refine ⟨?_, ?_, ?_, ?_⟩
  · rw [monitorDecision_confidence, foldl_mul_penalty]
  · rw [monitorDecision_rev_iff, monitorDecision_confidence]
  · intro h
    exact (monitorDecision_iter_rev _ _ _ h).1
  · intro h
    exact monitorDecision_iter_fin _ _ _ h

/-- Witness for the amended C3 monitor formula at the concrete conflict
scenario with iteration counter 0. -/
theorem c3_witness :
    ((checkConfidence 2 c3Outputs 0).confidence =
      avgOrHalf (monitorConfidences c3Outputs) *
        ((c3Outputs.filter isDebateOut).map debatePenaltyFactor).prod) ∧
    ((checkConfidence 2 c3Outputs 0).needsRevision = true ↔
      ((checkConfidence 2 c3Outputs 0).confidence < 1/2 ∧ 0 < 2)) ∧
    ((checkConfidence 2 c3Outputs 0).needsRevision = true →
      (checkConfidence 2 c3Outputs 0).iterationCount = 0 + 1) ∧
    ((checkConfidence 2 c3Outputs 0).needsRevision = false →
      (checkConfidence 2 c3Outputs 0).iterationCount = 0) :=
  c3_amended_monitor 2 c3Outputs 0

/-- C4: the iteration counter never decreases across a monitor call and
never exceeds the cap, and with the cap at its default 2 any run of
monitor passes reaches a finalize decision (needsRevision false) within
at most three monitor invocations, whatever the step outcomes of each
pass are. -/
theorem c4_iteration_bound_and_termination :
    (∀ (m : ℕ) (outs : List AgentOut) (i : ℕ),
      i ≤ (checkConfidence m outs i).iterationCount) ∧
    (∀ (m : ℕ) (outs : List AgentOut) (i : ℕ), i ≤ m →
      (checkConfidence m outs i).iterationCount ≤ m) ∧
    (∀ passes : ℕ → List AgentOut, ∃ k, k ≤ 2 ∧
      (monitorRun passes k).needsRevision = false) := by
  refine ⟨?_, ?_, ?_⟩
  · intro m outs i
    unfold checkConfidence
    rcases Bool.eq_false_or_eq_true (monitorDecision m _ i).needsRevision with h | h
    · rw [(monitorDecision_iter_rev _ _ _ h).1]
      omega
    · rw [monitorDecision_iter_fin _ _ _ h]
  · intro m outs i hi
    unfold checkConfidence
    rcases Bool.eq_false_or_eq_true (monitorDecision m _ i).needsRevision with h | h
    · rcases monitorDecision_iter_rev _ _ _ h with ⟨he, hlt⟩
      rw [he]
      omega
    · rw [monitorDecision_iter_fin _ _ _ h]
      exact hi
  · intro passes
    rcases Bool.eq_false_or_eq_true (monitorRun passes 0).needsRevision with h0 | h0
    case inr => exact ⟨0, by omega, h0⟩
    have e0 : (monitorRun passes 0).iterationCount = 0 + 1 := by
      rw [monitorRun_zero] at h0 ⊢
      unfold checkConfidence at h0 ⊢
      exact (monitorDecision_iter_rev _ _ _ h0).1
    rcases Bool.eq_false_or_eq_true (monitorRun passes 1).needsRevision with h1 | h1
    case inr => exact ⟨1, by omega, h1⟩
    have e1 : (monitorRun passes 1).iterationCount = 2 := by
      rw [monitorRun_succ] at h1 ⊢
      rw [e0] at h1 ⊢
      unfold checkConfidence at h1 ⊢
      exact (monitorDecision_iter_rev _ _ _ h1).1
    refine ⟨2, le_refl 2, ?_⟩
    rw [monitorRun_succ, e1]
    unfold checkConfidence
    exact monitorDecision_fin_of_ge _ _ _ (le_refl 2)

/-- Witness for C4: the monitor bounds instantiated at the empty-output
pass sequence and counter 0. -/
theorem c4_witness :
    (0 : ℕ) ≤ (checkConfidence 2 [] 0).iterationCount ∧
    (checkConfidence 2 [] 0).iterationCount ≤ 2 ∧
    ∃ k, k ≤ 2 ∧ (monitorRun (fun _ => []) k).needsRevision = false :=
  ⟨c4_iteration_bound_and_termination.1 2 [] 0,
   c4_iteration_bound_and_termination.2.1 2 [] 0 (by omega),
   c4_iteration_bound_and_termination.2.2 (fun _ => [])⟩
/-- C6: when the absolute/impossible-claim detection fires, the cascade
forces riskLevel HIGH and caps the confidence at
min(0.6 times confidence, 0.75), and the result is the same whatever the
historical data, contradiction count, debate ratio, or incoming risk
level are — the historical rules are short-circuited; conversely a
verified-specific carbon claim downgrades a MODERATE or HIGH risk level
to LOW. -/
theorem c6_cascade_shortcircuit :
    (∀ (f : ClaimFlags) (industry : String) (hist : Option HistData)
        (c : ℕ) (d : ℚ) (r : Verdict) (conf : ℚ),
      absoluteDetected f = true →
      verdictCascade f industry hist c d r conf = (.high, min (conf * (3/5)) (3/4)) ∧
      (verdictCascade f industry hist c d r conf).2 ≤ 3/4) ∧
    (∀ (f : ClaimFlags) (industry : String) (hist : Option HistData)
        (c : ℕ) (d : ℚ) (r : Verdict) (conf : ℚ),
      isLegitCarbon f = true → (r = .moderate ∨ r = .high) →
      (verdictCascade f industry hist c d r conf).1 = .low) := by
  constructor
  · intro f industry hist c d r conf habs
    have he : verdictCascade f industry hist c d r conf =
        (.high, min (conf * (3/5)) (3/4)) := by
      simp [verdictCascade, habs]
    refine ⟨he, ?_⟩
    rw [he]
    exact min_le_right _ _
  · intro f industry hist c d r conf hlegit hr
    have habs : absoluteDetected f = false := by
      simp [absoluteDetected, hlegit]
    rcases hr with rfl | rfl <;> simp [verdictCascade, habs, hlegit]

/-- Witness for C6: an absolute-pattern claim is forced to HIGH with
capped confidence regardless of a maximally adverse history, and a dated
metric-backed carbon claim at MODERATE is downgraded to LOW. -/
theorem c6_witness :
    (verdictCascade
        { absolutePattern := true, legitTerm := false, hasMetrics := false,
                hasYear := false, superlative := true, vagueKeywordCount := 3,
                hasMetricsP6 := false }
        "Energy"
        (some { reputationScore := 10, pastViolations := 5,
                      gwPatternDetected := true, gwPriorAccusations := 5,
                      decliningTrend := true, reactiveClaims := true })
        5 (9/10) .moderate (9/10) =
      (.high, min ((9/10) * (3/5)) (3/4))) ∧
    (verdictCascade
        { absolutePattern := false, legitTerm := true, hasMetrics := true,
                hasYear := true, superlative := false, vagueKeywordCount := 0,
                hasMetricsP6 := false }
        "Pharma" none 0 0 .moderate (1/2)).1 = .low :=
  ⟨(c6_cascade_shortcircuit.1
      { absolutePattern := true, legitTerm := false, hasMetrics := false,
              hasYear := false, superlative := true, vagueKeywordCount := 3,
              hasMetricsP6 := false }
      "Energy"
      (some { reputationScore := 10, pastViolations := 5,
                    gwPatternDetected := true, gwPriorAccusations := 5,
                    decliningTrend := true, reactiveClaims := true })
      5 (9/10) .moderate (9/10) rfl).1,
   c6_cascade_shortcircuit.2
      { absolutePattern := false, legitTerm := true, hasMetrics := true,
              hasYear := true, superlative := false, vagueKeywordCount := 0,
              hasMetricsP6 := false }
      "Pharma" none 0 0 .moderate (1/2) rfl (Or.inl rfl)⟩

/-- C7 counterexample: a failing claim-extraction call is recorded with
confidence 0.5, not 0 — the claimed error confidence of 0 does not match
the code. -/
theorem c7_counterexample :
    (claimExtractionNode (.error "boom") initState).agentOutputs =
      [{ agent := "claim_extraction", error := some "boom",
         confidence := some (1/2) }] ∧
    ¬((1/2 : ℚ) = 0) := by
  constructor
  · rfl
  · norm_num

/-- C7 amended: a failure of the underlying call is caught at the node
boundary and converted into exactly one appended output with the error
field set and a fixed fallback confidence (0.5 for claim extraction,
0.3 for evidence retrieval); the other record fields are untouched and
the following step still runs and appends its own output, so the run
continues. -/
theorem c7_amended_error_adapter :
    ∀ (s : EState) (e1 e2 : String),
      ((claimExtractionNode (.error e1) s).agentOutputs =
        s.agentOutputs ++ [{ agent := "claim_extraction", error := some e1,
                             confidence := some (1/2) }]) ∧
      (claimExtractionNode (.error e1) s).riskLevel = s.riskLevel ∧
      (claimExtractionNode (.error e1) s).confidence = s.confidence ∧
      (claimExtractionNode (.error e1) s).evidence = s.evidence ∧
      ((evidenceRetrievalNode (.error e2) s).agentOutputs =
        s.agentOutputs ++ [{ agent := "evidence_retrieval", error := some e2,
                             confidence := some (3/10) }]) ∧
      ((evidenceRetrievalNode (.error e2) (claimExtractionNode (.error e1) s)).agentOutputs =
        s.agentOutputs ++
          [{ agent := "claim_extraction", error := some e1, confidence := some (1/2) },
           { agent := "evidence_retrieval", error := some e2, confidence := some (3/10) }]) := by
  intro s e1 e2
  refine ⟨rfl, rfl, rfl, rfl, rfl, ?_⟩
  show (s.agentOutputs ++ [_]) ++ [_] = _
  rw [List.append_assoc]
  rfl

/-- Witness for the amended C7 at the initial state with concrete error
messages. -/
theorem c7_witness :
    ((claimExtractionNode (.error "x") initState).agentOutputs =
      initState.agentOutputs ++ [{ agent := "claim_extraction", error := some "x",
                                   confidence := some (1/2) }]) ∧
    (claimExtractionNode (.error "x") initState).riskLevel = initState.riskLevel ∧
    (claimExtractionNode (.error "x") initState).confidence = initState.confidence ∧
    (claimExtractionNode (.error "x") initState).evidence = initState.evidence ∧
    ((evidenceRetrievalNode (.error "y") initState).agentOutputs =
      initState.agentOutputs ++ [{ agent := "evidence_retrieval", error := some "y",
                                   confidence := some (3/10) }]) ∧
    ((evidenceRetrievalNode (.error "y")
        (claimExtractionNode (.error "x") initState)).agentOutputs =
      initState.agentOutputs ++
        [{ agent := "claim_extraction", error := some "x", confidence := some (1/2) },
         { agent := "evidence_retrieval", error := some "y", confidence := some (3/10) }]) :=
  c7_amended_error_adapter initState "x" "y"
theorem find?_append_none {α} (p : α → Bool) (l1 l2 : List α)
    (h : l1.find? p = none) : (l1 ++ l2).find? p = l2.find? p := by
  induction l1 with
  | nil => rfl
  | cons a l ih =>
    simp only [List.cons_append, List.find?] at h ⊢
    rcases hp : p a with _ | _
    · simp only [hp] at h ⊢
      exact ih h
    · simp [hp] at h

theorem filterMap_eq_nil_of {α β} (f : α → Option β) (l : List α)
    (h : ∀ o ∈ l, f o = none) : l.filterMap f = [] := by
  induction l with
  | nil => rfl
  | cons a l ih =>
    rw [List.filterMap_cons, h a (by simp)]
    exact ih (fun o ho => h o (by simp [ho]))

theorem find?_eq_none_of {α} (p : α → Bool) (l : List α)
    (h : ∀ o ∈ l, p o = false) : l.find? p = none := by
  induction l with
  | nil => rfl
  | cons a l ih =>
    simp only [List.find?]
    rw [h a (by simp)]
    exact ih (fun o ho => h o (by simp [ho]))

theorem filter_eq_nil_of {α} (p : α → Bool) (l : List α)
    (h : ∀ o ∈ l, p o = false) : l.filter p = [] := by
  induction l with
  | nil => rfl
  | cons a l ih =>
    rw [List.filter_cons, h a (by simp)]
    exact ih (fun o ho => h o (by simp [ho]))

theorem scoringConfidences_append (l1 l2 : List AgentOut) :
    scoringConfidences (l1 ++ l2) = scoringConfidences l1 ++ scoringConfidences l2 := by
  unfold scoringConfidences
  rw [List.filterMap_append]

theorem findHistorical_append_none (l1 l2 : List AgentOut)
    (h : l1.find? (fun o => o.agent = "temporal_analysis") = none) :
    findHistorical (l1 ++ l2) = findHistorical l2 := by
  unfold findHistorical
  rw [find?_append_none _ _ _ h]

theorem findContradictionCount_append_none (l1 l2 : List AgentOut)
    (h : l1.find? (fun o => o.agent = "contradiction_analysis") = none) :
    findContradictionCount (l1 ++ l2) = findContradictionCount l2 := by
  unfold findContradictionCount
  rw [find?_append_none _ _ _ h]

theorem findDebateConflictRatio_append_nil (l1 l2 : List AgentOut)
    (h : l1.filter isDebateOut = []) :
    findDebateConflictRatio (l1 ++ l2) = findDebateConflictRatio l2 := by
  unfold findDebateConflictRatio
  rw [List.filter_append, h, List.nil_append]

theorem verdictCascade_neutral (f : ClaimFlags) (industry : String)
    (habs : f.absolutePattern = false) (hlegit : f.legitTerm = false)
    (hsup : f.superlative = false) (hind : industry ∉ highRiskSectors) (conf : ℚ) :
    verdictCascade f industry none 0 0 .moderate conf = (.moderate, conf) := by
  have h1 : absoluteDetected f = false := by
    simp [absoluteDetected, habs]
  have h2 : isLegitCarbon f = false := by
    simp [isLegitCarbon, hlegit]
  have hd : ¬((0:ℚ) ≥ 60/100) := by norm_num
  simp [verdictCascade, h1, h2, hsup, hind, hd]

theorem standardPath_allfail (s : EState) (e1 e2 e3 e4 e5 e6 e7 e8 e9 : String)
    (h1 : scoringConfidences s.agentOutputs = [])
    (h2 : s.agentOutputs.find? (fun o => o.agent = "temporal_analysis") = none)
    (h3 : s.agentOutputs.find? (fun o => o.agent = "contradiction_analysis") = none)
    (h4 : s.agentOutputs.filter isDebateOut = [])
    (habs : s.claim.absolutePattern = false)
    (hlegit : s.claim.legitTerm = false)
    (hsup : s.claim.superlative = false)
    (hind : s.industry ∉ highRiskSectors) :
    (standardPath (.error e1) (.error e2) (.error e3) (.error e4) (.error e5)
        (.error e6) (.error e7) (.error e8) (.error e9) s).riskLevel = .moderate ∧
    (standardPath (.error e1) (.error e2) (.error e3) (.error e4) (.error e5)
        (.error e6) (.error e7) (.error e8) (.error e9) s).confidence = 1/2 ∧
    (standardPath (.error e1) (.error e2) (.error e3) (.error e4) (.error e5)
        (.error e6) (.error e7) (.error e8) (.error e9) s).finalVerdict =
      some { riskLevel := .moderate, confidence := 1/2 } ∧
    (standardPath (.error e1) (.error e2) (.error e3) (.error e4) (.error e5)
        (.error e6) (.error e7) (.error e8) (.error e9) s).report.isSome = true := by
  simp only [standardPath, claimExtractionNode, evidenceRetrievalNode,
    contradictionAnalysisNode, temporalAnalysisNode, peerComparisonNode,
    credibilityAnalysisNode, sentimentAnalysisNode, realtimeMonitoringNode,
    riskScoringNode, confidenceScoringNode, verdictGenerationNode,
    reportGenerationNode, List.append_assoc, List.singleton_append,
    List.cons_append, List.nil_append]
  rw [scoringConfidences_append]
  rw [show scoringConfidences s.agentOutputs = [] from h1]
  simp only [List.nil_append]
  rw [show scoringConfidences
      [({ agent := "claim_extraction", error := some e1, confidence := some (1/2) } : AgentOut),
       { agent := "evidence_retrieval", error := some e2, confidence := some (3/10) },
       { agent := "contradiction_analysis", error := some e3, confidence := some (1/2) },
       { agent := "temporal_analysis", error := some e4, confidence := some (1/2) },
       { agent := "peer_comparison", error := some e5, confidence := some (1/2) },
       { agent := "credibility_analysis", error := some e6, confidence := some (1/2) },
       { agent := "sentiment_analysis", error := some e7, confidence := some (1/2) },
       { agent := "realtime_monitoring", error := some e8, confidence := some (1/2) },
       { agent := "risk_scoring", error := some e9, confidence := some (1/2) }] = []
    from rfl]
  rw [show avgOrHalf [] = 1/2 from rfl]
  rw [findHistorical_append_none _ _ h2, findContradictionCount_append_none _ _ h3,
    findDebateConflictRatio_append_nil _ _ h4]
  rw [show findHistorical
      [({ agent := "claim_extraction", error := some e1, confidence := some (1/2) } : AgentOut),
       { agent := "evidence_retrieval", error := some e2, confidence := some (3/10) },
       { agent := "contradiction_analysis", error := some e3, confidence := some (1/2) },
       { agent := "temporal_analysis", error := some e4, confidence := some (1/2) },
       { agent := "peer_comparison", error := some e5, confidence := some (1/2) },
       { agent := "credibility_analysis", error := some e6, confidence := some (1/2) },
       { agent := "sentiment_analysis", error := some e7, confidence := some (1/2) },
       { agent := "realtime_monitoring", error := some e8, confidence := some (1/2) },
       { agent := "risk_scoring", error := some e9, confidence := some (1/2) },
       { agent := "confidence_scoring", confidence := some (1/2) }] = none
    from rfl]
  rw [show findContradictionCount
      [({ agent := "claim_extraction", error := some e1, confidence := some (1/2) } : AgentOut),
       { agent := "evidence_retrieval", error := some e2, confidence := some (3/10) },
       { agent := "contradiction_analysis", error := some e3, confidence := some (1/2) },
       { agent := "temporal_analysis", error := some e4, confidence := some (1/2) },
       { agent := "peer_comparison", error := some e5, confidence := some (1/2) },
       { agent := "credibility_analysis", error := some e6, confidence := some (1/2) },
       { agent := "sentiment_analysis", error := some e7, confidence := some (1/2) },
       { agent := "realtime_monitoring", error := some e8, confidence := some (1/2) },
       { agent := "risk_scoring", error := some e9, confidence := some (1/2) },
       { agent := "confidence_scoring", confidence := some (1/2) }] = 0
    from rfl]
  rw [show findDebateConflictRatio
      [({ agent := "claim_extraction", error := some e1, confidence := some (1/2) } : AgentOut),
       { agent := "evidence_retrieval", error := some e2, confidence := some (3/10) },
       { agent := "contradiction_analysis", error := some e3, confidence := some (1/2) },
       { agent := "temporal_analysis", error := some e4, confidence := some (1/2) },
       { agent := "peer_comparison", error := some e5, confidence := some (1/2) },
       { agent := "credibility_analysis", error := some e6, confidence := some (1/2) },
       { agent := "sentiment_analysis", error := some e7, confidence := some (1/2) },
       { agent := "realtime_monitoring", error := some e8, confidence := some (1/2) },
       { agent := "risk_scoring", error := some e9, confidence := some (1/2) },
       { agent := "confidence_scoring", confidence := some (1/2) }] = 0
    from rfl]
  rw [verdictCascade_neutral s.claim s.industry habs hlegit hsup hind (1/2)]
  exact ⟨rfl, rfl, rfl, rfl⟩
/-- C8 counterexample: the all-steps-fail STANDARD run completes with
riskLevel MODERATE and confidence exactly 0.5 — the neutral fallback of
the confidence scorer — which is neither 0 nor near 0. -/
theorem c8_counterexample :
    c8Run.riskLevel = .moderate ∧
    c8Run.confidence = 1/2 ∧
    c8Run.finalVerdict = some { riskLevel := .moderate, confidence := 1/2 } ∧
    c8Run.report.isSome = true ∧
    ¬(c8Run.confidence = 0) ∧
    ¬(c8Run.confidence ≤ 1/10) := by
  have h := standardPath_allfail initState "e1" "e2" "e3" "e4" "e5" "e6" "e7" "e8" "e9"
    rfl rfl rfl rfl rfl rfl rfl (by decide)
  unfold c8Run
  refine ⟨h.1, h.2.1, h.2.2.1, h.2.2.2, ?_, ?_⟩
  · rw [h.2.1]
    norm_num
  · rw [h.2.1]
    norm_num

/-- C8 amended: when every step of the STANDARD path fails and the run
starts from a routed state (only confidence-free supervisor outputs
recorded) whose claim text triggers no pattern rule, the run still
completes: riskLevel is set to the MODERATE fallback, the confidence is
the neutral fallback 0.5 (not 0), the final verdict is recorded, and the
report is produced — no exception escapes. -/
theorem c8_amended_allfail :
    ∀ (s : EState) (e1 e2 e3 e4 e5 e6 e7 e8 e9 : String),
      (∀ o ∈ s.agentOutputs, o.agent = "supervisor" ∧ o.confidence = none) →
      s.claim.absolutePattern = false →
      s.claim.legitTerm = false →
      s.claim.superlative = false →
      s.industry ∉ highRiskSectors →
      (standardPath (.error e1) (.error e2) (.error e3) (.error e4) (.error e5)
          (.error e6) (.error e7) (.error e8) (.error e9) s).riskLevel = .moderate ∧
      (standardPath (.error e1) (.error e2) (.error e3) (.error e4) (.error e5)
          (.error e6) (.error e7) (.error e8) (.error e9) s).confidence = 1/2 ∧
      (standardPath (.error e1) (.error e2) (.error e3) (.error e4) (.error e5)
          (.error e6) (.error e7) (.error e8) (.error e9) s).finalVerdict =
        some { riskLevel := .moderate, confidence := 1/2 } ∧
      (standardPath (.error e1) (.error e2) (.error e3) (.error e4) (.error e5)
          (.error e6) (.error e7) (.error e8) (.error e9) s).report.isSome = true := by
  intro s e1 e2 e3 e4 e5 e6 e7 e8 e9 hmeta habs hlegit hsup hind
  apply standardPath_allfail s e1 e2 e3 e4 e5 e6 e7 e8 e9 _ _ _ _ habs hlegit hsup hind
  · apply filterMap_eq_nil_of
    intro o ho
    show (if o.error.isSome then none else o.confidence) = none
    by_cases herr : o.error.isSome
    · rw [if_pos herr]
    · rw [if_neg herr]
      exact (hmeta o ho).2
  · apply find?_eq_none_of
    intro o ho
    rw [show o.agent = "supervisor" from (hmeta o ho).1]
    rfl
  · apply find?_eq_none_of
    intro o ho
    rw [show o.agent = "supervisor" from (hmeta o ho).1]
    rfl
  · apply filter_eq_nil_of
    intro o ho
    unfold isDebateOut
    rw [show o.agent = "supervisor" from (hmeta o ho).1]
    rfl

/-- Witness for the amended C8 at the initial state with concrete error
messages. -/
theorem c8_witness :
    (standardPath (.error "f1") (.error "f2") (.error "f3") (.error "f4") (.error "f5")
        (.error "f6") (.error "f7") (.error "f8") (.error "f9") initState).riskLevel =
      .moderate ∧
    (standardPath (.error "f1") (.error "f2") (.error "f3") (.error "f4") (.error "f5")
        (.error "f6") (.error "f7") (.error "f8") (.error "f9") initState).confidence =
      1/2 ∧
    (standardPath (.error "f1") (.error "f2") (.error "f3") (.error "f4") (.error "f5")
        (.error "f6") (.error "f7") (.error "f8") (.error "f9") initState).finalVerdict =
      some { riskLevel := .moderate, confidence := 1/2 } ∧
    (standardPath (.error "f1") (.error "f2") (.error "f3") (.error "f4") (.error "f5")
        (.error "f6") (.error "f7") (.error "f8") (.error "f9") initState).report.isSome =
      true :=
  c8_amended_allfail initState "f1" "f2" "f3" "f4" "f5" "f6" "f7" "f8" "f9"
    (by simp [initState]) rfl rfl rfl (by decide)
/-- C10 counterexample: the risk-scoring step writes riskLevel, the
confidence-scoring step writes confidence, and the debate resolver
(Consensus Resolver) writes both — so confidence and riskLevel are not
mutated only by the Confidence Monitor and the Verdict Synthesizer. -/
theorem c10_counterexample :
    ((riskScoringNode (.ok (some { riskLevel := some .high, confidence := some (9/10) }))
        initState).riskLevel = .high ∧ initState.riskLevel = .moderate) ∧
    ((confidenceScoringNode c10DebateState).confidence = 13/20 ∧
      c10DebateState.confidence = 1/5 ∧ ¬((13/20 : ℚ) = 1/5)) ∧
    ((conductDebate (fun _ _ => none) c10DebateState).confidence = 9/13 ∧
      (conductDebate (fun _ _ => none) c10DebateState).riskLevel = .high ∧
      c10DebateState.confidence = 1/5 ∧ c10DebateState.riskLevel = .low ∧
      ¬((9/13 : ℚ) = 1/5)) := by
  have h9 : voteWeight (9/10) = 9 := voteWeight_eval _ _ (by norm_num) (by norm_num)
  have h4 : voteWeight (2/5) = 4 := voteWeight_eval _ _ (by norm_num) (by norm_num)
  have hex : extractPositions c10DebateState.agentOutputs =
      [("risk_scoring", { verdict := .high, confidence := 9/10 }),
       ("contradiction_analysis", { verdict := .low, confidence := 2/5 })] := rfl
  have hwv : weightedVotes (extractPositions c10DebateState.agentOutputs) =
      List.replicate 9 Verdict.high ++ List.replicate 4 Verdict.low := by
    rw [hex]
    simp only [weightedVotes, List.map_cons, List.map_nil, h9, h4,
      List.flatten_cons, List.flatten_nil, List.append_nil]
  have hpick : pickMost (weightedVotes (extractPositions c10DebateState.agentOutputs)) =
      some Verdict.high := by
    apply pickMost_of_strict_max
    · rw [hwv]
      simp
    · intro v hv hne
      rw [hwv] at hv ⊢
      rcases (by simpa using hv : v = Verdict.high ∨ v = Verdict.low) with rfl | rfl
      · exact absurd rfl hne
      · simp [List.count_append, List.count_replicate]
  have hne : ¬(detectConflicts (extractPositions c10DebateState.agentOutputs) = []) := by
    decide
  have hhist : debateHistoryAll (fun _ _ => none)
      (detectConflicts (extractPositions c10DebateState.agentOutputs)) = [] := rfl
  have hratio : rbvConflictRatio (extractPositions c10DebateState.agentOutputs)
      Verdict.high = 1/2 := by
    rw [hex]
    show (((1:ℕ) : ℚ)) / (((2:ℕ)) : ℚ) = 1/2
    norm_num
  have hcc : rbvConsensus (extractPositions c10DebateState.agentOutputs)
      Verdict.high = 9/13 := by
    unfold rbvConsensus
    rw [hwv]
    show (((9:ℕ) : ℚ)) / (((13:ℕ)) : ℚ) = 9/13
    norm_num
  have hb : rbvBoosted (extractPositions c10DebateState.agentOutputs) [] Verdict.high =
      9/13 := by
    unfold rbvBoosted rbvBonus
    rw [hcc]
    norm_num [min_def]
  have hcf : rbvConfidence (extractPositions c10DebateState.agentOutputs) [] Verdict.high =
      9/13 := by
    unfold rbvConfidence
    rw [hratio, hb]
    rw [if_neg (by norm_num)]
  have hdeb : conductDebate (fun _ _ => none) c10DebateState =
      { c10DebateState with
        confidence := 9/13,
        riskLevel := Verdict.high,
        agentOutputs := c10DebateState.agentOutputs ++
          [({ agent := "debate_orchestrator",
              conflictingAgents :=
                some (List.map Prod.fst
                  (detectConflicts (extractPositions c10DebateState.agentOutputs))) } :
            AgentOut)] ++
          [({ agent := "debate_resolution", confidence := some (9/13) } : AgentOut)] } := by
    simp only [conductDebate]
    rw [if_neg hne, hhist, resolveByVoting_eq_of_pick _ _ _ hpick, hcf]
  refine ⟨⟨rfl, rfl⟩, ⟨?_, rfl, by norm_num⟩, ?_, ?_, rfl, rfl, by norm_num⟩
  · show avgOrHalf (scoringConfidences c10DebateState.agentOutputs) = 13/20
    rw [show scoringConfidences c10DebateState.agentOutputs = [9/10, 2/5] from rfl]
    unfold avgOrHalf
    rw [if_neg (by simp)]
    show ((9/10 : ℚ) + (2/5 + 0)) / (((2:ℕ) : ℚ)) = 13/20
    norm_num
  · rw [hdeb]
  · rw [hdeb]

/-- C10 amended: besides the Confidence Monitor and the Verdict
Synthesizer, the risk-scoring step writes riskLevel, the
confidence-scoring step writes confidence, and the Consensus Resolver
writes both when it resolves a conflict; the remaining steps (claim
extraction, evidence retrieval, contradiction, temporal, peer,
credibility, sentiment, realtime monitoring, report generation) never
write either field. -/
theorem c10_amended_field_writers :
    (∀ (o : Except String ClaimOk) (s : EState),
      (claimExtractionNode o s).riskLevel = s.riskLevel ∧
      (claimExtractionNode o s).confidence = s.confidence) ∧
    (∀ (o : Except String EvidenceOk) (s : EState),
      (evidenceRetrievalNode o s).riskLevel = s.riskLevel ∧
      (evidenceRetrievalNode o s).confidence = s.confidence) ∧
    (∀ (o : Except String ContradictionOk) (s : EState),
      (contradictionAnalysisNode o s).riskLevel = s.riskLevel ∧
      (contradictionAnalysisNode o s).confidence = s.confidence) ∧
    (∀ (o : Except String (Option HistData)) (s : EState),
      (temporalAnalysisNode o s).riskLevel = s.riskLevel ∧
      (temporalAnalysisNode o s).confidence = s.confidence) ∧
    (∀ (o : Except String GenericOk) (s : EState),
      (peerComparisonNode o s).riskLevel = s.riskLevel ∧
      (peerComparisonNode o s).confidence = s.confidence) ∧
    (∀ (o : Except String GenericOk) (s : EState),
      (credibilityAnalysisNode o s).riskLevel = s.riskLevel ∧
      (credibilityAnalysisNode o s).confidence = s.confidence) ∧
    (∀ (o : Except String GenericOk) (s : EState),
      (sentimentAnalysisNode o s).riskLevel = s.riskLevel ∧
      (sentimentAnalysisNode o s).confidence = s.confidence) ∧
    (∀ (o : Except String (Option (List String))) (s : EState),
      (realtimeMonitoringNode o s).riskLevel = s.riskLevel ∧
      (realtimeMonitoringNode o s).confidence = s.confidence) ∧
    (∀ s : EState,
      (reportGenerationNode s).riskLevel = s.riskLevel ∧
      (reportGenerationNode s).confidence = s.confidence) ∧
    (∀ (p : RiskOk) (s : EState),
      (riskScoringNode (.ok (some p)) s).riskLevel = p.riskLevel.getD .moderate) ∧
    (∀ s : EState,
      (confidenceScoringNode s).confidence =
        avgOrHalf (scoringConfidences s.agentOutputs)) ∧
    (∀ (argue : ℕ → String → Option String) (s : EState),
      detectConflicts (extractPositions s.agentOutputs) ≠ [] →
      (conductDebate argue s).confidence =
        (resolveByVoting (extractPositions s.agentOutputs)
          (debateHistoryAll argue
            (detectConflicts (extractPositions s.agentOutputs)))).confidence ∧
      (conductDebate argue s).riskLevel =
        (resolveByVoting (extractPositions s.agentOutputs)
          (debateHistoryAll argue
            (detectConflicts (extractPositions s.agentOutputs)))).verdict) := by
  refine ⟨?_, ?_, ?_, ?_, ?_, ?_, ?_, ?_, ?_, ?_, ?_, ?_⟩
  · intro o s
    cases o <;> exact ⟨rfl, rfl⟩
  · intro o s
    cases o <;> exact ⟨rfl, rfl⟩
  · intro o s
    cases o <;> exact ⟨rfl, rfl⟩
  · intro o s
    cases o <;> exact ⟨rfl, rfl⟩
  · intro o s
    cases o <;> exact ⟨rfl, rfl⟩
  · intro o s
    cases o <;> exact ⟨rfl, rfl⟩
  · intro o s
    cases o <;> exact ⟨rfl, rfl⟩
  · intro o s
    rcases o with e | r
    · exact ⟨rfl, rfl⟩
    · cases r <;> exact ⟨rfl, rfl⟩
  · intro s
    exact ⟨rfl, rfl⟩
  · intro p s
    rfl
  · intro s
    rfl
  · intro argue s h
    simp only [conductDebate]
    rw [if_neg h]
    exact ⟨rfl, rfl⟩

/-- Witness for the amended C10: a failing claim-extraction call leaves
riskLevel and confidence untouched, a successful risk-scoring call
writes its returned risk level, and the resolver on the conflicting
scenario state writes the voting result into confidence and riskLevel. -/
theorem c10_witness :
    ((claimExtractionNode (.error "w") initState).riskLevel = initState.riskLevel ∧
      (claimExtractionNode (.error "w") initState).confidence = initState.confidence) ∧
    (riskScoringNode (.ok (some { riskLevel := some .low, confidence := some (1/2) }))
        initState).riskLevel = (some Verdict.low).getD .moderate ∧
    ((conductDebate (fun _ _ => none) c10DebateState).confidence =
      (resolveByVoting (extractPositions c10DebateState.agentOutputs)
        (debateHistoryAll (fun _ _ => none)
          (detectConflicts (extractPositions c10DebateState.agentOutputs)))).confidence ∧
     (conductDebate (fun _ _ => none) c10DebateState).riskLevel =
      (resolveByVoting (extractPositions c10DebateState.agentOutputs)
        (debateHistoryAll (fun _ _ => none)
          (detectConflicts (extractPositions c10DebateState.agentOutputs)))).verdict) :=
  ⟨c10_amended_field_writers.1 (.error "w") initState,
   c10_amended_field_writers.2.2.2.2.2.2.2.2.2.1
     { riskLevel := some .low, confidence := some (1/2) } initState,
   c10_amended_field_writers.2.2.2.2.2.2.2.2.2.2.2 (fun _ _ => none) c10DebateState
     (by decide)⟩

end ESG
